import Mathlib

/-!
Verification of the document position-mapping core
(`packages/language-server/src/lib/documents/DocumentMapper.ts`).

The embedding follows the source file closely:
* `Position` / `Range` and the LSP result-object shapes are plain structures
  with the fields the source reads or writes; optional TypeScript fields
  become `Option`.
* `SourceMapDocumentMapper` holds an abstract backend (`SourceMapConsumer`)
  whose two query methods are function fields returning
  `Option MappedPosition`; a `none` result models a `null` backend answer and
  a `none` field models a `null` field.  JavaScript's `x || 0` on a possibly
  null number is `jsOrZero`.
* `FragmentMapper` uses the external text utilities `offsetAt` / `positionAt`
  (imported from `./utils` in the source, outside the mapping core); they are
  passed as explicit function parameters.
* The remapping functions take a `DocumentMapper`, a record of the interface's
  capability set, standing for any implementation of the interface.
-/

structure Position where
  line : Int
  character : Int
deriving DecidableEq

structure Range where
  start : Position
  «end» : Position
deriving DecidableEq

/-- JavaScript `x || 0` applied to a number-or-null value: `null` (here
`none`) becomes `0`; a number is kept (`0 || 0` is `0`, so `some v ↦ v`
covers every case). -/
def jsOrZero : Option Int → Int
  | none => 0
  | some v => v

/-- Shape of a backend answer: `{line: number|null, column: number|null}`. -/
structure MappedPosition where
  line : Option Int
  column : Option Int
deriving DecidableEq

/-- The external coordinate-translation backend (`source-map` consumer),
reduced to the query contract the mapper uses: `originalPositionFor` takes a
line and a column, `generatedPositionFor` additionally takes the source URI. -/
structure SourceMapConsumer where
  originalPositionFor : Int → Int → Option MappedPosition
  generatedPositionFor : Int → Int → String → Option MappedPosition

structure SourceMapDocumentMapper where
  consumer : SourceMapConsumer
  sourceUri : String

/-- `SourceMapDocumentMapper.getOriginalPosition`: queries the backend at
`(line + 1, character)`; a `null` answer yields `(-1, -1)`; otherwise the
result is `(mapped.line || 0) - 1` and `mapped.column || 0`.  (The source
also logs when `mapped.line === 0`; logging does not affect the result.) -/
def SourceMapDocumentMapper.getOriginalPosition (m : SourceMapDocumentMapper)
    (generatedPosition : Position) : Position :=
  match m.consumer.originalPositionFor (generatedPosition.line + 1) generatedPosition.character with
  | none => { line := -1, character := -1 }
  | some mapped => { line := jsOrZero mapped.line - 1, character := jsOrZero mapped.column }

/-- `SourceMapDocumentMapper.getGeneratedPosition`: symmetric query through
`generatedPositionFor`, passing the source URI.  The source ends with
`if (result.line < 0) return result; return result;`, which returns the same
value on both branches. -/
def SourceMapDocumentMapper.getGeneratedPosition (m : SourceMapDocumentMapper)
    (originalPosition : Position) : Position :=
  match m.consumer.generatedPositionFor (originalPosition.line + 1) originalPosition.character
      m.sourceUri with
  | none => { line := -1, character := -1 }
  | some mapped =>
    let result : Position := { line := jsOrZero mapped.line - 1, character := jsOrZero mapped.column }
    if result.line < 0 then result else result

/-- `SourceMapDocumentMapper.isInGenerated`: `generated.line >= 0`. -/
def SourceMapDocumentMapper.isInGenerated (m : SourceMapDocumentMapper)
    (position : Position) : Bool :=
  decide (0 ≤ (m.getGeneratedPosition position).line)

def SourceMapDocumentMapper.getURL (m : SourceMapDocumentMapper) : String :=
  m.sourceUri

/-- Fragment descriptor `{start, end, content}` (`TagInformation`). -/
structure TagInformation where
  start : Int
  «end» : Int
  content : String
deriving DecidableEq

structure FragmentMapper where
  originalText : String
  tagInfo : TagInformation
  url : String
deriving DecidableEq

/-- `FragmentMapper.offsetInParent`: `tagInfo.start + offset`. -/
def FragmentMapper.offsetInParent (m : FragmentMapper) (offset : Int) : Int :=
  m.tagInfo.start + offset

/-- `FragmentMapper.getOriginalPosition`, parametric in the external text
utilities `offsetAt` / `positionAt`. -/
def FragmentMapper.getOriginalPosition (offsetAt : Position → String → Int)
    (positionAt : Int → String → Position) (m : FragmentMapper)
    (generatedPosition : Position) : Position :=
  positionAt (m.offsetInParent (offsetAt generatedPosition m.tagInfo.content)) m.originalText

/-- `FragmentMapper.getGeneratedPosition`: offset in the parent minus
`tagInfo.start`, rendered against the fragment content. -/
def FragmentMapper.getGeneratedPosition (offsetAt : Position → String → Int)
    (positionAt : Int → String → Position) (m : FragmentMapper)
    (originalPosition : Position) : Position :=
  positionAt (offsetAt originalPosition m.originalText - m.tagInfo.start) m.tagInfo.content

/-- `FragmentMapper.isInGenerated`: `offset >= start && offset <= end`. -/
def FragmentMapper.isInGenerated (offsetAt : Position → String → Int)
    (m : FragmentMapper) (pos : Position) : Bool :=
  decide (m.tagInfo.start ≤ offsetAt pos m.originalText) &&
    decide (offsetAt pos m.originalText ≤ m.tagInfo.«end»)

/-- A concrete instance of the external `offsetAt` utility for single-line
texts, used to instantiate the parametric fragment theorems: a position on
line 0 with a non-negative character is its character; any other position has
no valid offset (rendered as `-1`). -/
def offsetAtFlat (p : Position) (_text : String) : Int :=
  if p.line = 0 ∧ 0 ≤ p.character then p.character else -1

/-- A concrete instance of the external `positionAt` utility for single-line
texts: offset `o` is position `(0, o)`. -/
def positionAtFlat (o : Int) (_text : String) : Position :=
  ⟨0, o⟩

/-- The `DocumentMapper` interface capability set, as a record; any mapper
variant (identity, fragment, source-map backed) induces such a record. -/
structure DocumentMapper where
  getOriginalPosition : Position → Position
  getGeneratedPosition : Position → Position
  isInGenerated : Position → Bool
  getURL : String

/-- `mapRangeToOriginal`: both endpoints through `getOriginalPosition`. -/
def mapRangeToOriginal (fragment : DocumentMapper) (range : Range) : Range :=
  { start := fragment.getOriginalPosition range.start
    «end» := fragment.getOriginalPosition range.«end» }

/-- `mapRangeToGenerated`: both endpoints through `getGeneratedPosition`. -/
def mapRangeToGenerated (fragment : DocumentMapper) (range : Range) : Range :=
  { start := fragment.getGeneratedPosition range.start
    «end» := fragment.getGeneratedPosition range.«end» }

structure TextEdit where
  range : Range
  newText : String
deriving DecidableEq

/-- `mapTextEditToOriginal`: `{ ...edit, range: mapRangeToOriginal(...) }`. -/
def mapTextEditToOriginal (fragment : DocumentMapper) (edit : TextEdit) : TextEdit :=
  { edit with range := mapRangeToOriginal fragment edit.range }

structure Location where
  uri : String
  range : Range
deriving DecidableEq

/-- `mapLocationToOriginal`: `{ ...loc, range: mapRangeToOriginal(...) }`. -/
def mapLocationToOriginal (fragment : DocumentMapper) (loc : Location) : Location :=
  { loc with range := mapRangeToOriginal fragment loc.range }

structure CompletionItem where
  label : String
  detail : Option String
  insertText : Option String
  textEdit : Option TextEdit
deriving DecidableEq

/-- `mapCompletionItemToOriginal`: identity when `textEdit` is absent,
otherwise `{ ...item, textEdit: mapTextEditToOriginal(...) }`. -/
def mapCompletionItemToOriginal (fragment : DocumentMapper)
    (item : CompletionItem) : CompletionItem :=
  match item.textEdit with
  | none => item
  | some e => { item with textEdit := some (mapTextEditToOriginal fragment e) }

structure Hover where
  contents : String
  range : Option Range
deriving DecidableEq

/-- `mapHoverToParent`: identity when `range` is absent, otherwise
`{ ...hover, range: mapRangeToOriginal(...) }`. -/
def mapHoverToParent (fragment : DocumentMapper) (hover : Hover) : Hover :=
  match hover.range with
  | none => hover
  | some r => { hover with range := some (mapRangeToOriginal fragment r) }

structure Diagnostic where
  range : Range
  severity : Option Int
  code : Option String
  source : Option String
  message : String
deriving DecidableEq

/-- `mapDiagnosticToOriginal`: `{ ...diagnostic, range: mapRangeToOriginal }`. -/
def mapDiagnosticToOriginal (fragment : DocumentMapper)
    (diagnostic : Diagnostic) : Diagnostic :=
  { diagnostic with range := mapRangeToOriginal fragment diagnostic.range }

/-- `mapDiagnosticToGenerated`: `{ ...diagnostic, range: mapRangeToGenerated }`. -/
def mapDiagnosticToGenerated (fragment : DocumentMapper)
    (diagnostic : Diagnostic) : Diagnostic :=
  { diagnostic with range := mapRangeToGenerated fragment diagnostic.range }

/-- Color value carried opaquely by `ColorInformation` (numeric components
are never computed on by this core, only copied). -/
structure Color where
  red : Int
  green : Int
  blue : Int
  alpha : Int
deriving DecidableEq

structure ColorInformation where
  range : Range
  color : Color
deriving DecidableEq

/-- `mapColorInformationToOriginal`: `{ ...info, range: mapRangeToOriginal }`. -/
def mapColorInformationToOriginal (fragment : DocumentMapper)
    (info : ColorInformation) : ColorInformation :=
  { info with range := mapRangeToOriginal fragment info.range }

structure ColorPresentation where
  label : String
  textEdit : Option TextEdit
  additionalTextEdits : Option (List TextEdit)
deriving DecidableEq

/-- `mapColorPresentationToOriginal`: structural copy, then the primary
`textEdit` is overridden if present, then `additionalTextEdits` is overridden
element-wise if present. -/
def mapColorPresentationToOriginal (fragment : DocumentMapper)
    (presentation : ColorPresentation) : ColorPresentation :=
  let item := presentation
  let item := match item.textEdit with
    | some e => { item with textEdit := some (mapTextEditToOriginal fragment e) }
    | none => item
  let item := match item.additionalTextEdits with
    | some es => { item with additionalTextEdits := some (es.map (mapTextEditToOriginal fragment)) }
    | none => item
  item

structure SymbolInformation where
  name : String
  kind : Int
  containerName : Option String
  location : Location
deriving DecidableEq

/-- `mapSymbolInformationToOriginal`: `{ ...info, location: mapLocationToOriginal }`. -/
def mapSymbolInformationToOriginal (fragment : DocumentMapper)
    (info : SymbolInformation) : SymbolInformation :=
  { info with location := mapLocationToOriginal fragment info.location }

structure LocationLink where
  targetUri : String
  targetRange : Range
  targetSelectionRange : Range
  originSelectionRange : Option Range
deriving DecidableEq

/-- `mapLocationLinkToOriginal`: target ranges are mapped only when the
link's `targetUri` equals the mapper's URL; the origin-selection range is
mapped whenever present. -/
def mapLocationLinkToOriginal (fragment : DocumentMapper)
    (d : LocationLink) : LocationLink :=
  { targetUri := d.targetUri
    targetRange :=
      if fragment.getURL = d.targetUri then mapRangeToOriginal fragment d.targetRange
      else d.targetRange
    targetSelectionRange :=
      if fragment.getURL = d.targetUri then mapRangeToOriginal fragment d.targetSelectionRange
      else d.targetSelectionRange
    originSelectionRange :=
      match d.originSelectionRange with
      | some r => some (mapRangeToOriginal fragment r)
      | none => none }

structure OptionalVersionedTextDocumentIdentifier where
  uri : String
  version : Option Int
deriving DecidableEq

structure TextDocumentEdit where
  textDocument : OptionalVersionedTextDocumentIdentifier
  edits : List TextEdit
deriving DecidableEq

/-- `mapTextDocumentEditToOriginal`: the edit set is returned unchanged when
its owning document URI differs from the mapper's URL; otherwise every
contained edit is mapped. -/
def mapTextDocumentEditToOriginal (fragment : DocumentMapper)
    (edit : TextDocumentEdit) : TextDocumentEdit :=
  if edit.textDocument.uri ≠ fragment.getURL then edit
  else
    { textDocument := edit.textDocument
      edits := edit.edits.map (mapTextEditToOriginal fragment) }

structure Command where
  title : String
  command : String
deriving DecidableEq

structure WorkspaceEdit where
  documentChanges : Option (List TextDocumentEdit)
deriving DecidableEq

structure CodeAction where
  title : String
  kind : Option String
  diagnostics : Option (List Diagnostic)
  isPreferred : Option Bool
  edit : Option WorkspaceEdit
  command : Option Command
  data : Option String
deriving DecidableEq

/-- `mapCodeActionToOriginal`: the source dereferences `codeAction.edit!` and
`.documentChanges!` (non-null assertions that throw when the field is
absent — modelled as `none`), and rebuilds via `CodeAction.create(title,
{documentChanges: ...map...}, kind)`, which sets only those three fields. -/
def mapCodeActionToOriginal (fragment : DocumentMapper)
    (codeAction : CodeAction) : Option CodeAction :=
  match codeAction.edit with
  | none => none
  | some workspaceEdit =>
    match workspaceEdit.documentChanges with
    | none => none
    | some documentChanges =>
      some { title := codeAction.title
             kind := codeAction.kind
             diagnostics := none
             isPreferred := none
             edit := some ⟨some (documentChanges.map (mapTextDocumentEditToOriginal fragment))⟩
             command := none
             data := none }

/-! Concrete fixtures used by the counterexample and the witnesses. -/

/-- Backend that always answers with the line-0 "unmapped" sentinel and a
non-zero column. -/
def cexConsumer : SourceMapConsumer :=
  ⟨fun _ _ => some ⟨some 0, some 5⟩, fun _ _ _ => some ⟨some 0, some 5⟩⟩

def cexMapper : SourceMapDocumentMapper := ⟨cexConsumer, "file.txt"⟩

/-- Backend that answers `null` for line-1 queries and a line-0 sentinel
with column 5 for every other query. -/
def missConsumer : SourceMapConsumer :=
  ⟨fun l _ => if l = 1 then none else some ⟨some 0, some 5⟩,
   fun l _ _ => if l = 1 then none else some ⟨some 0, some 5⟩⟩

def missMapper : SourceMapDocumentMapper := ⟨missConsumer, "file.txt"⟩

/-- Backend answering a genuine 1-based mapping for line-1 queries and the
line-0 sentinel otherwise. -/
def convConsumer : SourceMapConsumer :=
  ⟨fun l _ => if l = 1 then some ⟨some 1, some 4⟩ else some ⟨some 0, some 9⟩,
   fun l _ _ => if l = 1 then some ⟨some 1, some 4⟩ else some ⟨some 0, some 9⟩⟩

def convMapper : SourceMapDocumentMapper := ⟨convConsumer, "file.txt"⟩

/-- Fragment `[2, 7]` of a ten-character single-line parent text. -/
def fragM : FragmentMapper := ⟨"xxxxxxxxxx", ⟨2, 7, "abcde"⟩, "frag.txt"⟩

/-- A mapper record that shifts positions, with URL `a.txt`. -/
def mapperA : DocumentMapper :=
  { getOriginalPosition := fun p => ⟨p.line + 1, p.character + 2⟩
    getGeneratedPosition := fun p => ⟨p.line - 1, p.character - 2⟩
    isInGenerated := fun _ => true
    getURL := "a.txt" }

def r1 : Range := ⟨⟨1, 2⟩, ⟨3, 4⟩⟩

def r2 : Range := ⟨⟨5, 0⟩, ⟨5, 9⟩⟩

def r3 : Range := ⟨⟨0, 0⟩, ⟨0, 1⟩⟩

def linkSame : LocationLink := ⟨"a.txt", r1, r2, some r3⟩

def linkOther : LocationLink := ⟨"b.txt", r1, r2, some r3⟩

def te1 : TextEdit := ⟨r1, "new"⟩

def te2 : TextEdit := ⟨r2, "other"⟩

def docIdA : OptionalVersionedTextDocumentIdentifier := ⟨"a.txt", some 3⟩

def docIdB : OptionalVersionedTextDocumentIdentifier := ⟨"b.txt", none⟩

def editSame : TextDocumentEdit := ⟨docIdA, [te1, te2]⟩

def editOther : TextDocumentEdit := ⟨docIdB, [te1, te2]⟩

def diag1 : Diagnostic := ⟨r1, some 1, some "c1", some "ts", "msg"⟩

def caRich : CodeAction :=
  { title := "fix"
    kind := some "quickfix"
    diagnostics := some [diag1]
    isPreferred := some true
    edit := some ⟨some [editSame, editOther]⟩
    command := some ⟨"t", "c"⟩
    data := some "payload" }

def itemNoEdit : CompletionItem := ⟨"label", some "d", none, none⟩

def hoverNoRange : Hover := ⟨"docs", none⟩

def ci1 : ColorInformation := ⟨r1, ⟨1, 2, 3, 4⟩⟩

def cp1 : ColorPresentation := ⟨"rgb", some te1, some [te1, te2]⟩

def loc1 : Location := ⟨"a.txt", r1⟩

def si1 : SymbolInformation := ⟨"sym", 12, some "box", loc1⟩

/-! Helper lemmas: the flat single-line text utilities are mutually inverse
in the sense required by the fragment theorems. -/

/-- The flat utilities recover a valid offset from its rendered position. -/
theorem offsetAtFlat_positionAtFlat (t : String) (o : Int) (h1 : 0 ≤ o)
    (_h2 : o ≤ (t.length : Int)) : offsetAtFlat (positionAtFlat o t) t = o := by
  simp [offsetAtFlat, positionAtFlat, h1]

/-- The flat utilities recover a position with a valid offset from that
offset. -/
theorem positionAtFlat_offsetAtFlat (t : String) (q : Position)
    (h1 : 0 ≤ offsetAtFlat q t) (_h2 : offsetAtFlat q t ≤ (t.length : Int)) :
    positionAtFlat (offsetAtFlat q t) t = q := by
  obtain ⟨l, c⟩ := q
  by_cases h : l = 0 ∧ 0 ≤ c
  · obtain ⟨hl, hc⟩ := h
    subst hl
    simp [offsetAtFlat, positionAtFlat, hc]
  · exfalso
    simp [offsetAtFlat, h] at h1

/-- Claim C1 counterexample: with a backend that answers the query for
generated position `(0, 0)` with the line-0 sentinel and column 5, the
mapper's `getOriginalPosition` is `(-1, 5)`, not the sentinel `(-1, -1)`
the claim states. -/
theorem sourceMapMapper_line0_not_sentinel :
    cexMapper.consumer.originalPositionFor (0 + 1) 0 = some ⟨some 0, some 5⟩ ∧
    SourceMapDocumentMapper.getOriginalPosition cexMapper ⟨0, 0⟩ ≠ ⟨-1, -1⟩ ∧
    SourceMapDocumentMapper.getOriginalPosition cexMapper ⟨0, 0⟩ = ⟨-1, 5⟩ := by
  decide

/-- Claim C1 (amended): when the backend answers `null`, both translation
operations return the sentinel `(-1, -1)`; when it answers a mapping whose
line is 0, they return a position whose line is `-1` and whose character is
the backend's column coerced through `|| 0`; in both cases `isInGenerated`
for the corresponding original position is `false`. -/
theorem sourceMapMapper_miss_amended (m : SourceMapDocumentMapper)
    (p q : Position) (cq cg : Option Int)
    (h1 : m.consumer.originalPositionFor (p.line + 1) p.character = none)
    (h2 : m.consumer.originalPositionFor (q.line + 1) q.character = some ⟨some 0, cq⟩)
    (h3 : m.consumer.generatedPositionFor (p.line + 1) p.character m.sourceUri = none)
    (h4 : m.consumer.generatedPositionFor (q.line + 1) q.character m.sourceUri = some ⟨some 0, cg⟩) :
    m.getOriginalPosition p = ⟨-1, -1⟩ ∧
    (m.getOriginalPosition q).line = -1 ∧
    (m.getOriginalPosition q).character = jsOrZero cq ∧
    m.getGeneratedPosition p = ⟨-1, -1⟩ ∧
    m.isInGenerated p = false ∧
    (m.getGeneratedPosition q).line = -1 ∧
    (m.getGeneratedPosition q).character = jsOrZero cg ∧
    m.isInGenerated q = false := by
  simp only [SourceMapDocumentMapper.isInGenerated, SourceMapDocumentMapper.getOriginalPosition,
    SourceMapDocumentMapper.getGeneratedPosition, h1, h2, h3, h4, jsOrZero, ite_self]
  refine ⟨?_, ?_, ?_, ?_, ?_, ?_, ?_, ?_⟩ <;> trivial

/-- Claim C1 witness: a concrete backend answering `null` on line-1 queries
and a line-0 mapping with column 5 elsewhere. -/
theorem sourceMapMapper_miss_amended_witness :
    SourceMapDocumentMapper.getOriginalPosition missMapper ⟨0, 0⟩ = ⟨-1, -1⟩ ∧
    (SourceMapDocumentMapper.getOriginalPosition missMapper ⟨1, 0⟩).line = -1 ∧
    (SourceMapDocumentMapper.getOriginalPosition missMapper ⟨1, 0⟩).character = 5 ∧
    SourceMapDocumentMapper.getGeneratedPosition missMapper ⟨0, 0⟩ = ⟨-1, -1⟩ ∧
    SourceMapDocumentMapper.isInGenerated missMapper ⟨0, 0⟩ = false ∧
    (SourceMapDocumentMapper.getGeneratedPosition missMapper ⟨1, 0⟩).line = -1 ∧
    (SourceMapDocumentMapper.getGeneratedPosition missMapper ⟨1, 0⟩).character = 5 ∧
    SourceMapDocumentMapper.isInGenerated missMapper ⟨1, 0⟩ = false :=
  sourceMapMapper_miss_amended missMapper ⟨0, 0⟩ ⟨1, 0⟩ (some 5) (some 5)
    (by decide) (by decide) (by decide) (by decide)

/-- Claim C2: queries go to the backend at `(line + 1, character)` (the
hypotheses fix the backend's answer exactly at that 1-based point and thereby
determine the result); an answered 1-based line `l ≥ 1` is rendered as core
line `l - 1 ≥ 0` (so `l = 1` becomes core line 0) with the answered column
unchanged; the line-0 sentinel answer is rendered with core line `-1`, which
is negative and hence distinguished from every genuine mapping's rendering. -/
theorem sourceMapMapper_convention (m : SourceMapDocumentMapper)
    (p q : Position) (l c cq : Int) (hl : 1 ≤ l)
    (h1 : m.consumer.originalPositionFor (p.line + 1) p.character = some ⟨some l, some c⟩)
    (h2 : m.consumer.originalPositionFor (q.line + 1) q.character = some ⟨some 0, some cq⟩)
    (h3 : m.consumer.generatedPositionFor (p.line + 1) p.character m.sourceUri = some ⟨some l, some c⟩)
    (h4 : m.consumer.generatedPositionFor (q.line + 1) q.character m.sourceUri = some ⟨some 0, some cq⟩) :
    (m.getOriginalPosition p).line = l - 1 ∧
    0 ≤ (m.getOriginalPosition p).line ∧
    (m.getOriginalPosition p).character = c ∧
    (m.getOriginalPosition q).line = -1 ∧
    (m.getGeneratedPosition p).line = l - 1 ∧
    0 ≤ (m.getGeneratedPosition p).line ∧
    (m.getGeneratedPosition q).line = -1 := by
  simp only [SourceMapDocumentMapper.getOriginalPosition,
    SourceMapDocumentMapper.getGeneratedPosition, h1, h2, h3, h4, jsOrZero, ite_self]
  refine ⟨?_, ?_, ?_, ?_, ?_, ?_, ?_⟩ <;> first | trivial | omega

/-- Claim C2 witness: backend answer `(1, 4)` renders as core line 0 and
column 4; the line-0 answer renders as line `-1`. -/
theorem sourceMapMapper_convention_witness :
    (SourceMapDocumentMapper.getOriginalPosition convMapper ⟨0, 7⟩).line = 0 ∧
    0 ≤ (SourceMapDocumentMapper.getOriginalPosition convMapper ⟨0, 7⟩).line ∧
    (SourceMapDocumentMapper.getOriginalPosition convMapper ⟨0, 7⟩).character = 4 ∧
    (SourceMapDocumentMapper.getOriginalPosition convMapper ⟨3, 0⟩).line = -1 ∧
    (SourceMapDocumentMapper.getGeneratedPosition convMapper ⟨0, 7⟩).line = 0 ∧
    0 ≤ (SourceMapDocumentMapper.getGeneratedPosition convMapper ⟨0, 7⟩).line ∧
    (SourceMapDocumentMapper.getGeneratedPosition convMapper ⟨3, 0⟩).line = -1 :=
  sourceMapMapper_convention convMapper ⟨0, 7⟩ ⟨3, 0⟩ 1 4 9 (by decide)
    (by decide) (by decide) (by decide) (by decide)

/-- Claim C3: for any text utilities that are mutually inverse on valid
offsets, any well-formed fragment descriptor (`end - start` equals the
content length, carved inside the parent text), and any generated position
whose fragment-local offset lies in `[0, length]`,
`getGeneratedPosition (getOriginalPosition p) = p`. -/
theorem fragmentMapper_roundtrip (offsetAt : Position → String → Int)
    (positionAt : Int → String → Position) (m : FragmentMapper) (p : Position)
    (hinv1 : ∀ (t : String) (o : Int), 0 ≤ o → o ≤ (t.length : Int) →
      offsetAt (positionAt o t) t = o)
    (hinv2 : ∀ (t : String) (q : Position), 0 ≤ offsetAt q t →
      offsetAt q t ≤ (t.length : Int) → positionAt (offsetAt q t) t = q)
    (hlen : m.tagInfo.«end» - m.tagInfo.start = (m.tagInfo.content.length : Int))
    (hstart : 0 ≤ m.tagInfo.start)
    (hend : m.tagInfo.«end» ≤ (m.originalText.length : Int))
    (ho1 : 0 ≤ offsetAt p m.tagInfo.content)
    (ho2 : offsetAt p m.tagInfo.content ≤ (m.tagInfo.content.length : Int)) :
    FragmentMapper.getGeneratedPosition offsetAt positionAt m
      (FragmentMapper.getOriginalPosition offsetAt positionAt m p) = p := by
  unfold FragmentMapper.getGeneratedPosition FragmentMapper.getOriginalPosition
    FragmentMapper.offsetInParent
  have h1 : offsetAt (positionAt (m.tagInfo.start + offsetAt p m.tagInfo.content)
      m.originalText) m.originalText = m.tagInfo.start + offsetAt p m.tagInfo.content := by
    apply hinv1
    · omega
    · omega
  rw [h1]
  have h2 : m.tagInfo.start + offsetAt p m.tagInfo.content - m.tagInfo.start
      = offsetAt p m.tagInfo.content := by ring
  rw [h2, hinv2 m.tagInfo.content p ho1 ho2]

/-- Claim C3 witness: fragment `[2, 7]` of a ten-character one-line parent,
generated position `(0, 3)` round-trips to itself under the flat utilities. -/
theorem fragmentMapper_roundtrip_witness :
    FragmentMapper.getGeneratedPosition offsetAtFlat positionAtFlat fragM
      (FragmentMapper.getOriginalPosition offsetAtFlat positionAtFlat fragM ⟨0, 3⟩) = ⟨0, 3⟩ :=
  fragmentMapper_roundtrip offsetAtFlat positionAtFlat fragM ⟨0, 3⟩
    offsetAtFlat_positionAtFlat positionAtFlat_offsetAtFlat
    (by decide) (by decide) (by decide) (by decide) (by decide)

/-- Claim C4: `isInGenerated` holds exactly when the original position's
offset against the parent text lies in the closed interval
`[tagInfo.start, tagInfo.end]`; in particular it is `false` at one offset
below the start and at one offset above the end. -/
theorem fragmentMapper_isInGenerated_boundary (offsetAt : Position → String → Int)
    (m : FragmentMapper) (p : Position) :
    (FragmentMapper.isInGenerated offsetAt m p = true ↔
      m.tagInfo.start ≤ offsetAt p m.originalText ∧
        offsetAt p m.originalText ≤ m.tagInfo.«end») ∧
    (offsetAt p m.originalText = m.tagInfo.start - 1 →
      FragmentMapper.isInGenerated offsetAt m p = false) ∧
    (offsetAt p m.originalText = m.tagInfo.«end» + 1 →
      FragmentMapper.isInGenerated offsetAt m p = false) := by
  have key : FragmentMapper.isInGenerated offsetAt m p = true ↔
      m.tagInfo.start ≤ offsetAt p m.originalText ∧
        offsetAt p m.originalText ≤ m.tagInfo.«end» := by
    simp [FragmentMapper.isInGenerated]
  refine ⟨key, ?_, ?_⟩
  · intro h
    rcases Bool.eq_false_or_eq_true (FragmentMapper.isInGenerated offsetAt m p) with hb | hb
    · have := key.mp hb
      omega
    · exact hb
  · intro h
    rcases Bool.eq_false_or_eq_true (FragmentMapper.isInGenerated offsetAt m p) with hb | hb
    · have := key.mp hb
      omega
    · exact hb

/-- Claim C4 witness: for fragment `[2, 7]`, offsets 1 and 8 are outside and
offset 3 is inside. -/
theorem fragmentMapper_isInGenerated_boundary_witness :
    FragmentMapper.isInGenerated offsetAtFlat fragM ⟨0, 1⟩ = false ∧
    FragmentMapper.isInGenerated offsetAtFlat fragM ⟨0, 8⟩ = false ∧
    FragmentMapper.isInGenerated offsetAtFlat fragM ⟨0, 3⟩ = true :=
  ⟨(fragmentMapper_isInGenerated_boundary offsetAtFlat fragM ⟨0, 1⟩).2.1 (by decide),
   (fragmentMapper_isInGenerated_boundary offsetAtFlat fragM ⟨0, 8⟩).2.2 (by decide),
   (fragmentMapper_isInGenerated_boundary offsetAtFlat fragM ⟨0, 3⟩).1.mpr (by decide)⟩

/-- Claim C5: the target range and target-selection range of a location link
are mapped exactly when the link's `targetUri` equals the mapper's URL, and
returned unchanged otherwise; the origin-selection range is mapped whenever
present, regardless of the target URI; the target URI itself is preserved. -/
theorem mapLocationLinkToOriginal_uri_guard (fragment : DocumentMapper)
    (d : LocationLink) :
    (mapLocationLinkToOriginal fragment d).targetUri = d.targetUri ∧
    (fragment.getURL = d.targetUri →
      (mapLocationLinkToOriginal fragment d).targetRange =
        mapRangeToOriginal fragment d.targetRange ∧
      (mapLocationLinkToOriginal fragment d).targetSelectionRange =
        mapRangeToOriginal fragment d.targetSelectionRange) ∧
    (fragment.getURL ≠ d.targetUri →
      (mapLocationLinkToOriginal fragment d).targetRange = d.targetRange ∧
      (mapLocationLinkToOriginal fragment d).targetSelectionRange = d.targetSelectionRange) ∧
    (mapLocationLinkToOriginal fragment d).originSelectionRange =
      Option.map (mapRangeToOriginal fragment) d.originSelectionRange := by
  unfold mapLocationLinkToOriginal
  refine ⟨rfl, ?_, ?_, ?_⟩
  · intro h
    simp [h]
  · intro h
    simp [h]
  · rcases hd : d.originSelectionRange with _ | r <;> simp [hd]

/-- Claim C5 witness: a link into `a.txt` has both target ranges mapped by
the `a.txt` mapper; a link into `b.txt` keeps both unchanged; origin ranges
are mapped in both cases. -/
theorem mapLocationLinkToOriginal_uri_guard_witness :
    (mapLocationLinkToOriginal mapperA linkSame).targetRange =
      mapRangeToOriginal mapperA linkSame.targetRange ∧
    (mapLocationLinkToOriginal mapperA linkSame).targetSelectionRange =
      mapRangeToOriginal mapperA linkSame.targetSelectionRange ∧
    (mapLocationLinkToOriginal mapperA linkOther).targetRange = linkOther.targetRange ∧
    (mapLocationLinkToOriginal mapperA linkOther).targetSelectionRange =
      linkOther.targetSelectionRange ∧
    (mapLocationLinkToOriginal mapperA linkOther).originSelectionRange =
      Option.map (mapRangeToOriginal mapperA) linkOther.originSelectionRange :=
  ⟨((mapLocationLinkToOriginal_uri_guard mapperA linkSame).2.1 (by decide)).1,
   ((mapLocationLinkToOriginal_uri_guard mapperA linkSame).2.1 (by decide)).2,
   ((mapLocationLinkToOriginal_uri_guard mapperA linkOther).2.2.1 (by decide)).1,
   ((mapLocationLinkToOriginal_uri_guard mapperA linkOther).2.2.1 (by decide)).2,
   (mapLocationLinkToOriginal_uri_guard mapperA linkOther).2.2.2⟩

/-- Claim C6: a text-document edit set owned by the mapper's URL has every
contained edit's range mapped (and its document identifier kept); an edit
set owned by a different URI is returned unchanged. -/
theorem mapTextDocumentEditToOriginal_uri_guard (fragment : DocumentMapper)
    (edit : TextDocumentEdit) :
    (edit.textDocument.uri = fragment.getURL →
      mapTextDocumentEditToOriginal fragment edit =
        ⟨edit.textDocument, edit.edits.map (mapTextEditToOriginal fragment)⟩) ∧
    (edit.textDocument.uri ≠ fragment.getURL →
      mapTextDocumentEditToOriginal fragment edit = edit) := by
  unfold mapTextDocumentEditToOriginal
  constructor
  · intro h
    simp [h]
  · intro h
    simp [h]

/-- Claim C6 witness: the edit set owned by `a.txt` is mapped element-wise;
the one owned by `b.txt` is returned unchanged. -/
theorem mapTextDocumentEditToOriginal_uri_guard_witness :
    mapTextDocumentEditToOriginal mapperA editSame =
      ⟨editSame.textDocument, editSame.edits.map (mapTextEditToOriginal mapperA)⟩ ∧
    mapTextDocumentEditToOriginal mapperA editOther = editOther :=
  ⟨(mapTextDocumentEditToOriginal_uri_guard mapperA editSame).1 (by decide),
   (mapTextDocumentEditToOriginal_uri_guard mapperA editOther).2 (by decide)⟩

/-- Claim C7: under the precondition that the code action's edit carries a
`documentChanges` list, the function returns a code action whose edit is the
element-wise text-document-edit remapping of that list and whose title and
kind are the input's. -/
theorem mapCodeActionToOriginal_rebuild (fragment : DocumentMapper)
    (ca : CodeAction) (we : WorkspaceEdit) (changes : List TextDocumentEdit)
    (h1 : ca.edit = some we) (h2 : we.documentChanges = some changes) :
    (mapCodeActionToOriginal fragment ca).isSome = true ∧
    Option.map CodeAction.title (mapCodeActionToOriginal fragment ca) = some ca.title ∧
    Option.map CodeAction.kind (mapCodeActionToOriginal fragment ca) = some ca.kind ∧
    Option.map CodeAction.edit (mapCodeActionToOriginal fragment ca) =
      some (some ⟨some (changes.map (mapTextDocumentEditToOriginal fragment))⟩) := by
  simp [mapCodeActionToOriginal, h1, h2]

/-- Claim C7 witness: the rich code action's `documentChanges` list is
remapped element-wise while title and kind survive. -/
theorem mapCodeActionToOriginal_rebuild_witness :
    (mapCodeActionToOriginal mapperA caRich).isSome = true ∧
    Option.map CodeAction.title (mapCodeActionToOriginal mapperA caRich) = some "fix" ∧
    Option.map CodeAction.kind (mapCodeActionToOriginal mapperA caRich) = some (some "quickfix") ∧
    Option.map CodeAction.edit (mapCodeActionToOriginal mapperA caRich) =
      some (some ⟨some ([editSame, editOther].map (mapTextDocumentEditToOriginal mapperA))⟩) :=
  mapCodeActionToOriginal_rebuild mapperA caRich ⟨some [editSame, editOther]⟩
    [editSame, editOther] rfl rfl

/-- Claim C8: a completion item without a text edit and a hover without a
range are each returned unchanged (the remapping functions are total, so no
error can be raised). -/
theorem optional_field_identity (fragment : DocumentMapper) (item : CompletionItem)
    (hover : Hover) (h1 : item.textEdit = none) (h2 : hover.range = none) :
    mapCompletionItemToOriginal fragment item = item ∧
    mapHoverToParent fragment hover = hover := by
  constructor
  · unfold mapCompletionItemToOriginal
    rw [h1]
  · unfold mapHoverToParent
    rw [h2]

/-- Claim C8 witness: concrete completion item and hover lacking the
optional field come back unchanged. -/
theorem optional_field_identity_witness :
    mapCompletionItemToOriginal mapperA itemNoEdit = itemNoEdit ∧
    mapHoverToParent mapperA hoverNoRange = hoverNoRange :=
  optional_field_identity mapperA itemNoEdit hoverNoRange rfl rfl

/-- Claim C9: each remapping function only replaces range-bearing fields —
diagnostic severity/code/source/message, the color value, symbol
name/kind/container and location URI, location URI, and edit text are all
preserved; a color presentation with a primary edit and additional edits has
all of those ranges independently mapped and its label unchanged. -/
theorem remap_frame_property (fragment : DocumentMapper) (d : Diagnostic)
    (ci : ColorInformation) (si : SymbolInformation) (loc : Location)
    (te : TextEdit) (cp : ColorPresentation) (e : TextEdit) (es : List TextEdit)
    (h1 : cp.textEdit = some e) (h2 : cp.additionalTextEdits = some es) :
    (mapDiagnosticToOriginal fragment d).severity = d.severity ∧
    (mapDiagnosticToOriginal fragment d).code = d.code ∧
    (mapDiagnosticToOriginal fragment d).source = d.source ∧
    (mapDiagnosticToOriginal fragment d).message = d.message ∧
    (mapColorInformationToOriginal fragment ci).color = ci.color ∧
    (mapSymbolInformationToOriginal fragment si).name = si.name ∧
    (mapSymbolInformationToOriginal fragment si).kind = si.kind ∧
    (mapSymbolInformationToOriginal fragment si).containerName = si.containerName ∧
    (mapSymbolInformationToOriginal fragment si).location.uri = si.location.uri ∧
    (mapLocationToOriginal fragment loc).uri = loc.uri ∧
    (mapTextEditToOriginal fragment te).newText = te.newText ∧
    (mapColorPresentationToOriginal fragment cp).label = cp.label ∧
    (mapColorPresentationToOriginal fragment cp).textEdit =
      some (mapTextEditToOriginal fragment e) ∧
    (mapColorPresentationToOriginal fragment cp).additionalTextEdits =
      some (es.map (mapTextEditToOriginal fragment)) := by
  refine ⟨rfl, rfl, rfl, rfl, rfl, rfl, rfl, rfl, rfl, rfl, rfl, ?_, ?_, ?_⟩ <;>
    simp [mapColorPresentationToOriginal, h1, h2,
      mapDiagnosticToOriginal, mapColorInformationToOriginal,
      mapSymbolInformationToOriginal, mapLocationToOriginal, mapTextEditToOriginal]

/-- Claim C9 witness: concrete diagnostic, color data, symbol, location,
edit and presentation keep their non-range fields. -/
theorem remap_frame_property_witness :
    (mapDiagnosticToOriginal mapperA diag1).severity = diag1.severity ∧
    (mapDiagnosticToOriginal mapperA diag1).code = diag1.code ∧
    (mapDiagnosticToOriginal mapperA diag1).source = diag1.source ∧
    (mapDiagnosticToOriginal mapperA diag1).message = diag1.message ∧
    (mapColorInformationToOriginal mapperA ci1).color = ci1.color ∧
    (mapSymbolInformationToOriginal mapperA si1).name = si1.name ∧
    (mapSymbolInformationToOriginal mapperA si1).kind = si1.kind ∧
    (mapSymbolInformationToOriginal mapperA si1).containerName = si1.containerName ∧
    (mapSymbolInformationToOriginal mapperA si1).location.uri = si1.location.uri ∧
    (mapLocationToOriginal mapperA loc1).uri = loc1.uri ∧
    (mapTextEditToOriginal mapperA te1).newText = te1.newText ∧
    (mapColorPresentationToOriginal mapperA cp1).label = cp1.label ∧
    (mapColorPresentationToOriginal mapperA cp1).textEdit =
      some (mapTextEditToOriginal mapperA te1) ∧
    (mapColorPresentationToOriginal mapperA cp1).additionalTextEdits =
      some ([te1, te2].map (mapTextEditToOriginal mapperA)) :=
  remap_frame_property mapperA diag1 ci1 si1 loc1 te1 cp1 te1 [te1, te2] rfl rfl

/-- Claim C10: the rebuilt code action carries only the input's title, the
remapped edit and the input's kind; diagnostics, preferred flag, command and
data are absent from the result even when present on the input. -/
theorem mapCodeActionToOriginal_drops_fields (fragment : DocumentMapper)
    (ca : CodeAction) (we : WorkspaceEdit) (changes : List TextDocumentEdit)
    (h1 : ca.edit = some we) (h2 : we.documentChanges = some changes) :
    Option.map CodeAction.diagnostics (mapCodeActionToOriginal fragment ca) = some none ∧
    Option.map CodeAction.isPreferred (mapCodeActionToOriginal fragment ca) = some none ∧
    Option.map CodeAction.command (mapCodeActionToOriginal fragment ca) = some none ∧
    Option.map CodeAction.data (mapCodeActionToOriginal fragment ca) = some none := by
  simp [mapCodeActionToOriginal, h1, h2]

/-- Claim C10 witness: the rich code action (with diagnostics, preferred
flag, command and data all set) loses all four on remapping. -/
theorem mapCodeActionToOriginal_drops_fields_witness :
    Option.map CodeAction.diagnostics (mapCodeActionToOriginal mapperA caRich) = some none ∧
    Option.map CodeAction.isPreferred (mapCodeActionToOriginal mapperA caRich) = some none ∧
    Option.map CodeAction.command (mapCodeActionToOriginal mapperA caRich) = some none ∧
    Option.map CodeAction.data (mapCodeActionToOriginal mapperA caRich) = some none :=
  mapCodeActionToOriginal_drops_fields mapperA caRich ⟨some [editSame, editOther]⟩
    [editSame, editOther] rfl rfl
